import Mathlib

/-!
Shallow embedding of the VR benefit pipeline (Automacao_Compra_VR):
the Consolidation, Eligibility/Validation and Calculation stages of
`src/agents/consolidation.py`, `src/agents/validation.py` and
`src/agents/calculation.py`, together with the business rules of
`src/core/rules.py` they call.  DataFrames are modelled as lists of a
wide record type plus an explicit column-name list (pandas column
presence checks are df-level, not row-level); NaN and absent cells are
both modelled as `none`; Python floats are modelled as exact rationals
with Python's banker's rounding made explicit.
-/

namespace VR

/-- Python's round-to-integer with ties to even (banker's rounding),
modelled over ℚ. -/
def roundHalfEven (q : ℚ) : ℤ :=
  if q - ⌊q⌋ < 1/2 then ⌊q⌋
  else if 1/2 < q - ⌊q⌋ then ⌊q⌋ + 1
  else if ⌊q⌋ % 2 = 0 then ⌊q⌋ else ⌊q⌋ + 1

/-- Python `round(x, 2)`. -/
def pyRound2 (q : ℚ) : ℚ := (roundHalfEven (q * 100) : ℚ) / 100

/-- Python `round(x, 1)`. -/
def pyRound1 (q : ℚ) : ℚ := (roundHalfEven (q * 10) : ℚ) / 10

/-- Python `int(x)`: truncation toward zero. -/
def pyInt (q : ℚ) : ℤ := if 0 ≤ q then ⌊q⌋ else ⌈q⌉

/-- `p` is a prefix of `l` (on character lists). -/
def isPre : List Char → List Char → Bool
  | [], _ => true
  | _ :: _, [] => false
  | p :: ps, c :: cs => p = c && isPre ps cs

/-- `pat` occurs contiguously inside `l`. -/
def hasSub : List Char → List Char → Bool
  | [], pat => isPre pat []
  | c :: t, pat => isPre pat (c :: t) || hasSub t pat

/-- Python's substring test `pat in s`. -/
def strContains (s pat : String) : Bool := hasSub s.data pat.data

/-- Python `sep.join(parts)`. -/
def pyJoin (sep : String) : List String → String
  | [] => ""
  | [a] => a
  | a :: b :: t => a ++ sep ++ pyJoin sep (b :: t)

/-- Uppercasing as Python `str.upper`, covering ASCII letters and the
accented letters appearing in this repository's data/strings. -/
def upChar (c : Char) : Char :=
  if 'a' ≤ c ∧ c ≤ 'z' then Char.ofNat (c.toNat - 32)
  else if c = 'á' then 'Á' else if c = 'é' then 'É' else if c = 'í' then 'Í'
  else if c = 'ó' then 'Ó' else if c = 'ú' then 'Ú' else if c = 'â' then 'Â'
  else if c = 'ê' then 'Ê' else if c = 'ô' then 'Ô' else if c = 'ã' then 'Ã'
  else if c = 'õ' then 'Õ' else if c = 'ç' then 'Ç' else if c = 'à' then 'À'
  else c

/-- Python `str.upper`. -/
def pyUpper (s : String) : String := String.mk (s.data.map upChar)

/-- Zero-pad to two digits, as strftime's `%d` / `%m`. -/
def pad2 (n : ℕ) : String := if n < 10 then "0" ++ toString n else toString n

/-- Zero-pad to four digits, as strftime's `%Y`. -/
def pad4 (n : ℕ) : String :=
  if n < 10 then "000" ++ toString n
  else if n < 100 then "00" ++ toString n
  else if n < 1000 then "0" ++ toString n
  else toString n

/-- A calendar date as the code consumes it (`pd.to_datetime(...).day`
and `strftime`); only day / month / year are ever read. -/
structure Date where
  day : ℕ
  month : ℕ
  year : ℕ
deriving DecidableEq

/-- `strftime("%d/%m/%Y")`. -/
def fmtDate (d : Date) : String := pad2 d.day ++ "/" ++ pad2 d.month ++ "/" ++ pad4 d.year

/-- One DataFrame row, wide enough for every column the three stages
read or write.  `none` stands for NaN or for a cell of a column the
row's table does not have (column presence itself is tracked at table
level). -/
structure Row where
  MATRICULA : Option ℤ
  TITULO_DO_CARGO : Option String
  DESC_SITUACAO : Option String
  Sindicato : Option String
  DIAS_DE_FERIAS : Option ℚ
  IS_ESTAGIARIO : Option Bool
  IS_APRENDIZ : Option Bool
  IS_AFASTADO : Option Bool
  IS_EXTERIOR : Option Bool
  IS_DESLIGADO : Option Bool
  DATA_DEMISSAO : Option Date
  DATA_ADMISSAO : Option Date
  VALOR_DIA : Option ℚ
  DIAS_UTEIS_SINDICATO : Option ℚ
  ELEGIVEL : Option Bool
  MOTIVO_EXCLUSAO : Option String
  ELEGIVEL_VR : Option Bool
  MOTIVO_EXCLUSAO_VR : Option String
  TIPO_CALCULO : Option String
  DATA_LIMITE_CALCULO : Option Date
  EM_FERIAS : Option Bool
  DIAS_FERIAS : Option ℚ
  DIAS_CALCULO : Option ℤ
  VALOR_TOTAL_VR : Option ℚ
  CUSTO_EMPRESA : Option ℚ
  DESCONTO_PROFISSIONAL : Option ℚ
  OBSERVACOES : Option String
  SINDICATO : Option String
  DIAS_UTEIS : Option ℚ
  Cadastro : Option ℤ
  Admissao : Option Date
deriving DecidableEq

/-- The all-empty row, used to build concrete test rows. -/
def emptyRow : Row :=
  ⟨none, none, none, none, none, none, none, none, none, none, none, none, none,
   none, none, none, none, none, none, none, none, none, none, none, none, none,
   none, none, none, none, none⟩

/-- A DataFrame: the list of column names plus the rows in order. -/
structure Table where
  cols : List String
  rows : List Row
deriving DecidableEq

/-- Adding a column by assignment (`df[c] = ...`): appends the name
unless the column already exists. -/
def addCol (cols : List String) (c : String) : List String :=
  if c ∈ cols then cols else cols ++ [c]

/-- The named raw input tables (`state["raw_files"]`), each optionally
absent from the dict. -/
structure RawFiles where
  ativos : Option Table
  ferias : Option Table
  estagio : Option Table
  aprendiz : Option Table
  afastamentos : Option Table
  exterior : Option Table
  desligados : Option Table
  admissao : Option Table
  base_sindicato : Option Table
  base_dias_uteis : Option Table
deriving DecidableEq

/-- Python truthiness of the `raw_files` dict: falsy iff no table at all. -/
def RawFiles.isEmptyDict (r : RawFiles) : Bool :=
  r.ativos.isNone && r.ferias.isNone && r.estagio.isNone && r.aprendiz.isNone &&
  r.afastamentos.isNone && r.exterior.isNone && r.desligados.isNone &&
  r.admissao.isNone && r.base_sindicato.isNone && r.base_dias_uteis.isNone

/-- One entry of `state["errors"]` / `state["warnings"]`:
`{"stage": ..., "error": ...}`. -/
structure ErrEntry where
  stage : String
  error : String
deriving DecidableEq

/-- The pipeline state (`VRState` of `src/graph/state.py`), restricted to
the keys the consolidation / validation / calculation stages read or
write.  The per-union and per-type breakdown dictionaries produced by
`_calculate_final_statistics` are log-only derived statistics and are
carried as the scalar aggregates below. -/
structure VRState where
  raw_files : Option RawFiles
  consolidated_df : Option Table
  validated_df : Option Table
  calculated_df : Option Table
  month_year : String
  total_employees : ℤ
  eligible_employees : ℤ
  excluded_employees : ℤ
  errors : List ErrEntry
  warnings : List ErrEntry
  processing_stage : String
  success : Bool
  total_calculated_employees : ℤ
  total_company_cost : ℚ
  total_employee_discount : ℚ
  total_vr_value : ℚ
  average_vr_value : ℚ
  average_workdays : ℚ
deriving DecidableEq

/-! ## Calculation engine (`src/agents/calculation.py`) -/

/-- `CalculationAgent._calculate_individual_workdays`: per-employee paid
day count by calculation regime. -/
def calculateIndividualWorkdays (r : Row) : ℤ :=
  let dias_base : ℤ := match r.DIAS_UTEIS_SINDICATO with
    | none => 22
    | some q => pyInt q
  let tipo_calculo := r.TIPO_CALCULO.getD "INTEGRAL"
  if tipo_calculo = "INTEGRAL" then dias_base
  else if tipo_calculo = "FERIAS" then
    let dias_ferias : ℤ := match r.DIAS_FERIAS with
      | none => 0
      | some q => pyInt q
    max 0 (dias_base - dias_ferias)
  else if tipo_calculo = "PROPORCIONAL" then
    match r.DATA_LIMITE_CALCULO with
    | none => dias_base
    | some data_limite =>
      if data_limite.day ≤ 15 then max 1 (pyInt ((dias_base : ℚ) * (1/2)))
      else dias_base
  else dias_base

/-- `VRBusinessRules.calculate_vacation_adjustment` (`src/core/rules.py`). -/
def calculate_vacation_adjustment (base_days vacation_days : ℤ) : ℤ :=
  max 0 (base_days - vacation_days)

/-- `VRBusinessRules.should_exclude_by_dismissal_date` (`src/core/rules.py`). -/
def should_exclude_by_dismissal_date (dismissal_date : Date) (cutoff_day : ℤ := 15) :
    Bool × String :=
  if (dismissal_date.day : ℤ) ≤ cutoff_day then
    (true, "Demissao comunicada ate dia " ++ toString cutoff_day)
  else (false, "PROPORCIONAL")

/-- `CalculationAgent._get_daily_value_for_employee`. -/
def getDailyValueForEmployee (r : Row) : ℚ :=
  match r.VALOR_DIA with
  | some valor_dia =>
    if 0 < valor_dia then valor_dia else getDailyValueFallback r
  | none => getDailyValueFallback r
where
  /-- The hardcoded union-name fallback map, searched in insertion order. -/
  getDailyValueFallback (r : Row) : ℚ :=
    let sindicato := r.Sindicato.getD ""
    if strContains sindicato "SINDPD SP" then 75/2
    else if strContains sindicato "SINDPPD RS" then 35
    else if strContains sindicato "SITEPD PR" then 35
    else if strContains sindicato "SINDPD RJ" then 35
    else 35

/-- Render a rational to two decimals, as the f-string `:.2f`. -/
def fmt2 (q : ℚ) : String :=
  let n := roundHalfEven (q * 100)
  toString (n / 100) ++ "." ++ pad2 (n % 100).toNat

/-- `CalculationAgent._generate_employee_observations`. -/
def generateEmployeeObservations (r : Row) (dias : ℤ) (valor_diario : ℚ) : String :=
  let obs₁ : List String :=
    if r.TIPO_CALCULO.getD "INTEGRAL" = "FERIAS" then
      ["AJUSTE FÉRIAS: " ++ toString (pyInt (r.DIAS_FERIAS.getD 0)) ++ " dias descontados"]
    else if r.TIPO_CALCULO.getD "INTEGRAL" = "PROPORCIONAL" then
      match r.DATA_LIMITE_CALCULO with
      | some data_limite => ["DESLIGAMENTO PROPORCIONAL até " ++ fmtDate data_limite]
      | none => []
    else []
  let obs := obs₁ ++ [toString dias ++ " dias × R$ " ++ fmt2 valor_diario]
  pyJoin "; " obs

/-- The per-row body of `CalculationAgent._calculate_individual_benefits`:
paid days, the three rounded monetary fields, and the audit note. -/
def calcBenefitsRow (r : Row) : Row :=
  let dias_calculo := calculateIndividualWorkdays r
  let valor_diario := getDailyValueForEmployee r
  let valor_total : ℚ := (dias_calculo : ℚ) * valor_diario
  { r with
    DIAS_CALCULO := some dias_calculo
    VALOR_TOTAL_VR := some (pyRound2 valor_total)
    CUSTO_EMPRESA := some (pyRound2 (valor_total * (4/5)))
    DESCONTO_PROFISSIONAL := some (pyRound2 (valor_total * (1/5)))
    OBSERVACOES := some (generateEmployeeObservations r dias_calculo valor_diario) }

/-- `CalculationAgent._calculate_individual_benefits` on the whole frame.
`employee['MATRICULA']` is read before the per-row try block, so a
missing MATRICULA column raises a KeyError that escapes to `execute`. -/
def calculateIndividualBenefits (df : Table) : Except String Table :=
  if "MATRICULA" ∈ df.cols then
    .ok { cols := addCol (addCol (addCol (addCol (addCol df.cols
            "DIAS_CALCULO") "VALOR_TOTAL_VR") "CUSTO_EMPRESA")
            "DESCONTO_PROFISSIONAL") "OBSERVACOES",
          rows := df.rows.map calcBenefitsRow }
  else .error "'MATRICULA'"

/-- `CalculationAgent._calculate_final_statistics`: the scalar aggregates
written into the state. -/
def calculateFinalStatistics (df : Table) (st : VRState) : VRState :=
  let n := df.rows.length
  let totalCompany := (df.rows.map (fun r => r.CUSTO_EMPRESA.getD 0)).sum
  let totalEmployee := (df.rows.map (fun r => r.DESCONTO_PROFISSIONAL.getD 0)).sum
  let totalGeneral := (df.rows.map (fun r => r.VALOR_TOTAL_VR.getD 0)).sum
  let totalDias := (df.rows.map (fun r => ((r.DIAS_CALCULO.getD 0 : ℤ) : ℚ))).sum
  { st with
    total_calculated_employees := n
    total_company_cost := pyRound2 totalCompany
    total_employee_discount := pyRound2 totalEmployee
    total_vr_value := pyRound2 totalGeneral
    average_vr_value := if 0 < n then pyRound2 (totalGeneral / n) else 0
    average_workdays := if 0 < n then pyRound1 (totalDias / n) else 0 }

/-- Shared shape of the stage-level `except` handlers: append the tagged
error, flag the run failed. -/
def stageFail (st : VRState) (stage msg failedTag : String) : VRState :=
  { st with
    errors := st.errors ++ [⟨stage, msg⟩]
    success := false
    processing_stage := failedTag }

/-- The local names bound inside `CalculationAgent.execute` before the
line `state["monthly_workdays"] = workdays` runs (`self`, the `state`
parameter and `df`); `workdays` is never among them, so that line raises
`NameError: name 'workdays' is not defined`. -/
def calcExecuteLocals : List String := ["self", "state", "df"]

/-- `CalculationAgent.execute`: the try body with its `except` handler.
State mutations made before an exception persist, as in Python. -/
def calculationExecute (st : VRState) : VRState :=
  match st.validated_df with
  | none => stageFail st "calculation" "DataFrame validado não encontrado no estado" "calculation_failed"
  | some df =>
    if df.rows.isEmpty then
      stageFail st "calculation" "DataFrame validado está vazio ou inválido" "calculation_failed"
    else
      match calculateIndividualBenefits df with
      | .error e => stageFail st "calculation" e "calculation_failed"
      | .ok df₂ =>
        let st₂ := calculateFinalStatistics df₂ st
        let st₃ := { st₂ with calculated_df := some df₂ }
        if calcExecuteLocals.contains "workdays" then
          { st₃ with processing_stage := "calculation_complete", success := true }
        else
          stageFail st₃ "calculation" "name 'workdays' is not defined" "calculation_failed"

/-! ## Eligibility / validation stage (`src/agents/validation.py`) -/

/-- The exclusion causes collected for one row by
`ValidationAgent._apply_individual_exclusion_rules`, in source order:
the four boolean flags, the excluded-position title match, and the
disqualifying work-status match.  A NaN title or status stringifies to
"nan"/"NAN" in Python, which matches none of the patterns, so `none` and
the empty string behave identically here. -/
def motivos (r : Row) : List String :=
  (if r.IS_ESTAGIARIO.getD false then ["Estagiário"] else []) ++
  (if r.IS_APRENDIZ.getD false then ["Aprendiz"] else []) ++
  (if r.IS_AFASTADO.getD false then ["Afastado"] else []) ++
  (if r.IS_EXTERIOR.getD false then ["Trabalha no exterior"] else []) ++
  (let cargo := pyUpper (r.TITULO_DO_CARGO.getD "")
   if strContains cargo "DIRETOR" || strContains cargo "GERENTE GERAL" ||
      strContains cargo "PRESIDENTE" then ["Cargo excluído"] else []) ++
  (let situacao := pyUpper (r.DESC_SITUACAO.getD "")
   if situacao ≠ "" ∧ situacao ∉ ["TRABALHANDO", "FÉRIAS"] then
     if situacao ∈ ["LICENÇA MATERNIDADE", "AUXÍLIO DOENÇA", "ATESTADO"] then
       ["Situação: " ++ situacao]
     else []
   else [])

/-- Per-row marking of `_apply_individual_exclusion_rules`: the columns
are initialised to `True` / `''` for every row, then rows with at least
one cause get `ELEGIVEL = False` and all causes joined with "; ". -/
def markExclusion (r : Row) : Row :=
  if motivos r = [] then { r with ELEGIVEL := some true, MOTIVO_EXCLUSAO := some "" }
  else { r with ELEGIVEL := some false,
                MOTIVO_EXCLUSAO := some (pyJoin "; " (motivos r)) }

/-- `ValidationAgent._apply_individual_exclusion_rules`: mark every row,
keep the eligible ones, drop the two marker columns. -/
def applyIndividualExclusionRules (df : Table) : Table :=
  let marked := df.rows.map markExclusion
  let eligible := marked.filter (fun r => r.ELEGIVEL = some true)
  { cols := ((addCol (addCol df.cols "ELEGIVEL") "MOTIVO_EXCLUSAO").filter
      (fun c => ¬(c = "ELEGIVEL" ∨ c = "MOTIVO_EXCLUSAO"))),
    rows := eligible.map (fun r => { r with ELEGIVEL := none, MOTIVO_EXCLUSAO := none }) }

/-- Per-row body of `ValidationAgent._apply_dismissal_rules` (the branch
where both the `IS_DESLIGADO` and `DATA_DEMISSAO` columns exist):
dismissed-with-date rows are excluded when the dismissal day is ≤ 15 and
switched to the prorated regime otherwise; all other rows stay eligible
on the full regime. -/
def dismissRow (r : Row) : Row :=
  match r.IS_DESLIGADO, r.DATA_DEMISSAO with
  | some true, some data_demissao =>
    if data_demissao.day ≤ 15 then
      { r with ELEGIVEL_VR := some false,
               MOTIVO_EXCLUSAO_VR :=
                 some ("Demissão até dia 15 (" ++ fmtDate data_demissao ++ ")") }
    else
      { r with ELEGIVEL_VR := some true,
               TIPO_CALCULO := some "PROPORCIONAL",
               DATA_LIMITE_CALCULO := some data_demissao }
  | _, _ => { r with ELEGIVEL_VR := some true, TIPO_CALCULO := some "INTEGRAL" }

/-- `ValidationAgent._apply_dismissal_rules` on the whole frame,
including the final `df[df['ELEGIVEL_VR'] == True]` filter. -/
def applyDismissalRules (df : Table) : Table :=
  if "IS_DESLIGADO" ∈ df.cols ∧ "DATA_DEMISSAO" ∈ df.cols then
    { cols := addCol (addCol (addCol (addCol df.cols "ELEGIVEL_VR")
        "MOTIVO_EXCLUSAO_VR") "TIPO_CALCULO") "DATA_LIMITE_CALCULO",
      rows := (df.rows.map dismissRow).filter (fun r => r.ELEGIVEL_VR = some true) }
  else
    { cols := addCol (addCol df.cols "ELEGIVEL_VR") "TIPO_CALCULO",
      rows := (df.rows.map
        (fun r => { r with ELEGIVEL_VR := some true, TIPO_CALCULO := some "INTEGRAL" })).filter
        (fun r => r.ELEGIVEL_VR = some true) }

/-- Per-row body of `ValidationAgent._process_vacation_rules`: all rows
are initialised with `EM_FERIAS = False`, `DIAS_FERIAS = 0`; rows with a
positive vacation-day cell are marked and, when still on the full
regime, switched to the vacation-adjusted regime. -/
def vacationRow (hasCol : Bool) (r : Row) : Row :=
  let r₀ := { r with EM_FERIAS := some false, DIAS_FERIAS := some 0 }
  if hasCol then
    match r.DIAS_DE_FERIAS with
    | some dias_ferias =>
      if 0 < dias_ferias then
        let r₁ := { r₀ with EM_FERIAS := some true,
                            DIAS_FERIAS := some ((pyInt dias_ferias : ℤ) : ℚ) }
        if r₁.TIPO_CALCULO = some "INTEGRAL" then { r₁ with TIPO_CALCULO := some "FERIAS" }
        else r₁
      else r₀
    | none => r₀
  else r₀

/-- `ValidationAgent._process_vacation_rules` on the whole frame. -/
def processVacationRules (df : Table) : Table :=
  { cols := addCol (addCol df.cols "EM_FERIAS") "DIAS_FERIAS",
    rows := df.rows.map (vacationRow ("DIAS DE FÉRIAS" ∈ df.cols)) }

/-! ## Consolidation engine (`src/agents/consolidation.py`) -/

/-- `df.drop_duplicates(subset=['MATRICULA'])`: keep the first row of
each MATRICULA value (pandas treats NaN keys as equal), stable on the
original order.  `seen` accumulates the keys already kept. -/
def dedupFirst (seen : List (Option ℤ)) : List Row → List Row
  | [] => []
  | r :: rs =>
    if r.MATRICULA ∈ seen then dedupFirst seen rs
    else r :: dedupFirst (r.MATRICULA :: seen) rs

/-- Left-merge lookup on MATRICULA: NaN keys never match, and the merged
table has been deduplicated so at most one row matches. -/
def lookupByMat (rows : List Row) (k : Option ℤ) : Option Row :=
  match k with
  | none => none
  | some m => rows.find? (fun x => x.MATRICULA = some m)

/-- The vacation merge of `_consolidate_employee_data`: left-join of the
deduplicated (MATRICULA, DIAS DE FÉRIAS) projection onto the roster. -/
def feriasStep (base : Table) (t? : Option Table) : Table :=
  match t? with
  | none => base
  | some t =>
    if t.rows ≠ [] ∧ "MATRICULA" ∈ t.cols ∧ "DIAS DE FÉRIAS" ∈ t.cols then
      let f₂ := dedupFirst [] t.rows
      { cols := addCol base.cols "DIAS DE FÉRIAS",
        rows := base.rows.map (fun r =>
          { r with
            DIAS_DE_FERIAS := (lookupByMat f₂ r.MATRICULA).bind (fun x => x.DIAS_DE_FERIAS) }) }
    else base

/-- One exclusion-category file of `_consolidate_employee_data`: the set
of identifiers present in the file (its `MATRICULA` column, or
`Cadastro` for the works-abroad file) becomes a boolean flag column on
the roster via `isin`. -/
def applyExclusionFlag (base : Table) (t? : Option Table)
    (setFlag : Row → Bool → Row) (flagName : String) : Table :=
  match t? with
  | none => base
  | some t =>
    if t.rows = [] then base
    else if "MATRICULA" ∈ t.cols then
      let mats := t.rows.filterMap (fun x => x.MATRICULA)
      { cols := addCol base.cols flagName,
        rows := base.rows.map (fun r =>
          setFlag r (match r.MATRICULA with
            | some m => decide (m ∈ mats)
            | none => false)) }
    else if "Cadastro" ∈ t.cols then
      let mats := t.rows.filterMap (fun x => x.Cadastro)
      { cols := addCol base.cols flagName,
        rows := base.rows.map (fun r =>
          setFlag r (match r.MATRICULA with
            | some m => decide (m ∈ mats)
            | none => false)) }
    else base

/-- The dismissal merge of `_consolidate_employee_data`: when the
dismissal file has a date column (under either of its two spellings),
left-join the deduplicated dates and flag membership; without a date
column only the membership flag is created. -/
def desligadosStep (base : Table) (t? : Option Table) : Table :=
  match t? with
  | none => base
  | some t =>
    if t.rows = [] then base
    else if "MATRICULA" ∈ t.cols then
      if "DATA_DEMISSAO" ∈ t.cols ∨ "DATA DEMISSÃO" ∈ t.cols then
        let d₂ := dedupFirst [] t.rows
        let keys := d₂.map (fun x => x.MATRICULA)
        { cols := addCol (addCol base.cols "DATA_DEMISSAO") "IS_DESLIGADO",
          rows := base.rows.map (fun r =>
            { r with
              DATA_DEMISSAO := (lookupByMat d₂ r.MATRICULA).bind (fun x => x.DATA_DEMISSAO),
              IS_DESLIGADO := some (decide (r.MATRICULA ∈ keys)) }) }
      else
        let keys := t.rows.map (fun x => x.MATRICULA)
        { cols := addCol base.cols "IS_DESLIGADO",
          rows := base.rows.map (fun r =>
            { r with IS_DESLIGADO := some (decide (r.MATRICULA ∈ keys)) }) }
    else base

/-- The admission merge of `_consolidate_employee_data`. -/
def admissaoStep (base : Table) (t? : Option Table) : Table :=
  match t? with
  | none => base
  | some t =>
    if t.rows ≠ [] ∧ "MATRICULA" ∈ t.cols ∧ "Admissão" ∈ t.cols then
      let a₂ := dedupFirst [] t.rows
      { cols := addCol base.cols "DATA_ADMISSAO",
        rows := base.rows.map (fun r =>
          { r with
            DATA_ADMISSAO := (lookupByMat a₂ r.MATRICULA).bind (fun x => x.Admissao) }) }
    else base

/-- `ConsolidationAgent._consolidate_employee_data`. -/
def consolidateEmployeeData (base : Table) (raw : RawFiles) : Table :=
  let b₁ := feriasStep base raw.ferias
  let b₂ := applyExclusionFlag b₁ raw.estagio
    (fun r b => { r with IS_ESTAGIARIO := some b }) "IS_ESTAGIARIO"
  let b₃ := applyExclusionFlag b₂ raw.aprendiz
    (fun r b => { r with IS_APRENDIZ := some b }) "IS_APRENDIZ"
  let b₄ := applyExclusionFlag b₃ raw.afastamentos
    (fun r b => { r with IS_AFASTADO := some b }) "IS_AFASTADO"
  let b₅ := applyExclusionFlag b₄ raw.exterior
    (fun r b => { r with IS_EXTERIOR := some b }) "IS_EXTERIOR"
  let b₆ := desligadosStep b₅ raw.desligados
  admissaoStep b₆ raw.admissao

/-- The union→rate map of `_add_union_values`: `dict(zip(...))` (last
occurrence of a duplicated key wins, NaN never matches) followed by
`.map` and `.fillna(35.0)`. -/
def resolveUnionValue (t : Table) (sind : Option String) : ℚ :=
  match sind with
  | none => 35
  | some s =>
    match t.rows.reverse.find? (fun x => x.SINDICATO = some s) with
    | some x => x.VALOR_DIA.getD 35
    | none => 35

/-- `ConsolidationAgent._add_union_values`. -/
def addUnionValues (base : Table) (t? : Option Table) : Table :=
  match t? with
  | none => base
  | some t =>
    if t.rows ≠ [] ∧ "SINDICATO" ∈ t.cols ∧ "VALOR_DIA" ∈ t.cols ∧
        "Sindicato" ∈ base.cols then
      { cols := addCol base.cols "VALOR_DIA",
        rows := base.rows.map (fun r =>
          { r with VALOR_DIA := some (resolveUnionValue t r.Sindicato) }) }
    else base

/-- The union→workdays map of `_add_workdays_by_union`, default 22. -/
def resolveUnionDays (t : Table) (sind : Option String) : ℚ :=
  match sind with
  | none => 22
  | some s =>
    match t.rows.reverse.find? (fun x => x.SINDICATO = some s) with
    | some x => x.DIAS_UTEIS.getD 22
    | none => 22

/-- `ConsolidationAgent._add_workdays_by_union`. -/
def addWorkdaysByUnion (base : Table) (t? : Option Table) : Table :=
  match t? with
  | none => base
  | some t =>
    if t.rows ≠ [] ∧ "SINDICATO" ∈ t.cols ∧ "DIAS_UTEIS" ∈ t.cols ∧
        "Sindicato" ∈ base.cols then
      { cols := addCol base.cols "DIAS_UTEIS_SINDICATO",
        rows := base.rows.map (fun r =>
          { r with DIAS_UTEIS_SINDICATO := some (resolveUnionDays t r.Sindicato) }) }
    else base

/-- The try body of `ConsolidationAgent.execute` as a function of the
raw files alone: precondition checks, first-occurrence deduplication of
the roster, then the merge/lookup chain. -/
def consolidateCore (raw? : Option RawFiles) : Except String Table :=
  match raw? with
  | none => .error "Dados brutos não encontrados no estado"
  | some raw =>
    if raw.isEmptyDict then .error "Dados brutos não encontrados no estado"
    else
      match raw.ativos with
      | none => .error "Arquivo ATIVOS obrigatório não encontrado"
      | some t =>
        if "MATRICULA" ∈ t.cols then
          let base₀ : Table := { cols := t.cols, rows := dedupFirst [] t.rows }
          let base₁ := consolidateEmployeeData base₀ raw
          let base₂ := addUnionValues base₁ raw.base_sindicato
          .ok (addWorkdaysByUnion base₂ raw.base_dias_uteis)
        else .error "Coluna MATRICULA não encontrada em ATIVOS"

/-- `ConsolidationAgent.execute` with its `except` handler. -/
def consolidationExecute (st : VRState) : VRState :=
  match consolidateCore st.raw_files with
  | .ok df =>
    { st with consolidated_df := some df,
              total_employees := df.rows.length,
              processing_stage := "consolidation_complete",
              success := true }
  | .error e => stageFail st "consolidation" e "consolidation_failed"

/-- The all-absent raw-files dict, used to build concrete test states. -/
def emptyRaw : RawFiles := ⟨none, none, none, none, none, none, none, none, none, none⟩

/-- A blank pipeline state, used to build concrete test states. -/
def emptyState : VRState :=
  ⟨none, none, none, none, "05/2025", 0, 0, 0, [], [], "", false, 0, 0, 0, 0, 0, 0⟩

/-! ## Concrete fixtures for witnesses and counterexamples -/

/-- A prorated-regime row with an odd contractual workday base (7) and a
first-fortnight cutoff date. -/
def rowOdd : Row :=
  { emptyRow with
    MATRICULA := some 10
    TIPO_CALCULO := some "PROPORCIONAL"
    DATA_LIMITE_CALCULO := some ⟨10, 5, 2025⟩
    DIAS_UTEIS_SINDICATO := some 7 }

/-- A vacation-regime row: 22 contractual workdays, 5 vacation days. -/
def rowVac : Row :=
  { emptyRow with
    MATRICULA := some 11
    TIPO_CALCULO := some "FERIAS"
    DIAS_UTEIS_SINDICATO := some 22
    DIAS_FERIAS := some 5 }

/-- An intern who is also a regional director. -/
def rowIntern : Row :=
  { emptyRow with
    MATRICULA := some 12
    IS_ESTAGIARIO := some true
    TITULO_DO_CARGO := some "Diretor Regional" }

/-- A roster row dismissed on the 20th. -/
def rowDismiss20 : Row :=
  { emptyRow with
    MATRICULA := some 13
    IS_DESLIGADO := some true
    DATA_DEMISSAO := some ⟨20, 5, 2025⟩ }

/-- A frame carrying the dismissal columns and `rowDismiss20`. -/
def dfDismiss : Table :=
  { cols := ["MATRICULA", "IS_DESLIGADO", "DATA_DEMISSAO"], rows := [rowDismiss20] }

/-- A one-row validated frame for the calculation stage. -/
def dfValidated : Table :=
  { cols := ["MATRICULA", "TIPO_CALCULO"],
    rows := [{ emptyRow with MATRICULA := some 1, TIPO_CALCULO := some "INTEGRAL" }] }

/-- A state entering the calculation stage. -/
def stCalc : VRState := { emptyState with validated_df := some dfValidated }

/-- The first roster row for identifier 100 (an analyst). -/
def rowMat100 : Row :=
  { emptyRow with MATRICULA := some 100, TITULO_DO_CARGO := some "ANALISTA" }

/-- A roster in which identifier 100 appears twice with different job
titles, followed by identifier 2. -/
def ativosDup : Table :=
  { cols := ["MATRICULA", "TITULO DO CARGO"],
    rows := [rowMat100,
             { emptyRow with MATRICULA := some 100, TITULO_DO_CARGO := some "COORDENADOR" },
             { emptyRow with MATRICULA := some 2 }] }

/-- The consolidation merge chain never rewrites the roster-origin
fields of a record: the identifier, job title, work-status text and
union name survive every merge step unchanged. -/
def PreservesRoster (f : Row → Row) : Prop :=
  ∀ r : Row, (f r).MATRICULA = r.MATRICULA ∧
    (f r).TITULO_DO_CARGO = r.TITULO_DO_CARGO ∧
    (f r).DESC_SITUACAO = r.DESC_SITUACAO ∧
    (f r).Sindicato = r.Sindicato

/-- A state entering consolidation with the duplicated roster. -/
def stDup : VRState :=
  { emptyState with raw_files := some { emptyRaw with ativos := some ativosDup } }

/-- A second state with the same raw files as `stDup` but different
run metadata. -/
def stDup2 : VRState :=
  { emptyState with
    raw_files := some { emptyRaw with ativos := some ativosDup }
    month_year := "06/2025"
    processing_stage := "ingestion_complete" }

/-- A roster table without the MATRICULA column. -/
def ativosNoMat : Table :=
  { cols := ["NOME"], rows := [emptyRow] }

/-- A state whose roster lacks the identifier column. -/
def stNoMat : VRState :=
  { emptyState with raw_files := some { emptyRaw with ativos := some ativosNoMat } }

/-- A state with raw files but no roster table at all. -/
def stNoAtivos : VRState :=
  { emptyState with raw_files := some { emptyRaw with ferias := some ⟨["MATRICULA"], []⟩ } }

/-- A one-row roster with a union name but no union reference tables. -/
def stNoUnionTable : VRState :=
  { emptyState with
    raw_files := some { emptyRaw with
      ativos := some { cols := ["MATRICULA", "Sindicato"],
                       rows := [{ emptyRow with
                                  MATRICULA := some 1
                                  Sindicato := some "SINDPD SP" }] } } }

/-- The union-rate reference table (one mapped union). -/
def sindTable : Table :=
  { cols := ["SINDICATO", "VALOR_DIA"],
    rows := [{ emptyRow with SINDICATO := some "SINDPD SP", VALOR_DIA := some 35 }] }

/-- The union-workdays reference table (one mapped union). -/
def diasTable : Table :=
  { cols := ["SINDICATO", "DIAS_UTEIS"],
    rows := [{ emptyRow with SINDICATO := some "SINDPD SP", DIAS_UTEIS := some 22 }] }

/-- A consolidation input with both union reference tables present. -/
def stWithUnionTables : VRState :=
  { emptyState with
    raw_files := some { emptyRaw with
      ativos := some { cols := ["MATRICULA", "Sindicato"],
                       rows := [{ emptyRow with
                                  MATRICULA := some 1
                                  Sindicato := some "OUTRO SINDICATO" }] }
      base_sindicato := some sindTable
      base_dias_uteis := some diasTable } }

/-! ## Helper lemmas -/

theorem abs_roundHalfEven_sub_le (q : ℚ) : |(roundHalfEven q : ℚ) - q| ≤ 1/2 := by
  have h0 : (⌊q⌋ : ℚ) ≤ q := Int.floor_le q
  have h1 : q < ⌊q⌋ + 1 := Int.lt_floor_add_one q
  unfold roundHalfEven
  split_ifs with hf hg he
  · rw [abs_le]; constructor <;> linarith
  · rw [abs_le]; constructor <;> push_cast <;> linarith
  · rw [abs_le]; constructor <;> linarith
  · rw [abs_le]; constructor <;> push_cast <;> linarith

/-- Rounding a quantity and its 80 % / 20 % shares independently to two
decimals can disagree by at most one cent: the three rounding errors are
each at most half a cent, and the discrepancy is a whole number of
cents. -/
theorem pyRound2_split (x : ℚ) :
    |pyRound2 x - (pyRound2 (x * (4/5)) + pyRound2 (x * (1/5)))| ≤ 1/100 := by
  have ha := abs_roundHalfEven_sub_le (x * 100)
  have hb := abs_roundHalfEven_sub_le (x * (4/5) * 100)
  have hc := abs_roundHalfEven_sub_le (x * (1/5) * 100)
  rw [abs_le] at ha hb hc
  set a := roundHalfEven (x * 100) with hA
  set b := roundHalfEven (x * (4/5) * 100) with hB
  set c := roundHalfEven (x * (1/5) * 100) with hC
  have hup : ((a - b - c : ℤ) : ℚ) ≤ 3/2 := by push_cast; linarith [ha.2, hb.1, hc.1]
  have hlo : (-(3/2) : ℚ) ≤ ((a - b - c : ℤ) : ℚ) := by push_cast; linarith [ha.1, hb.2, hc.2]
  have hup2 : a - b - c < 2 := by
    have h2 : ((a - b - c : ℤ) : ℚ) < 2 := lt_of_le_of_lt hup (by norm_num)
    exact_mod_cast h2
  have hlo2 : (-2 : ℤ) < a - b - c := by
    have h2 : (-2 : ℚ) < ((a - b - c : ℤ) : ℚ) := lt_of_lt_of_le (by norm_num) hlo
    exact_mod_cast h2
  have hi1 : a - b - c ≤ 1 := by omega
  have hi2 : -1 ≤ a - b - c := by omega
  have hq1 : ((a : ℚ) - b - c) ≤ 1 := by exact_mod_cast hi1
  have hq2 : (-1 : ℚ) ≤ (a : ℚ) - b - c := by exact_mod_cast hi2
  show |(a : ℚ)/100 - ((b : ℚ)/100 + (c : ℚ)/100)| ≤ 1/100
  rw [abs_le]; constructor <;> linarith

theorem pyInt_intCast (n : ℤ) : pyInt (n : ℚ) = n := by
  unfold pyInt
  split_ifs with h
  · exact Int.floor_intCast n
  · exact Int.ceil_intCast n

theorem isPre_refl (l : List Char) : isPre l l = true := by
  induction l with
  | nil => rfl
  | cons c t ih => simp [isPre, ih]

theorem isPre_append_right : ∀ (p l e : List Char), isPre p l = true → isPre p (l ++ e) = true
  | [], _, _, _ => rfl
  | a :: ps, [], e, h => by simp [isPre] at h
  | a :: ps, c :: cs, e, h => by
    simp [isPre] at h ⊢
    exact ⟨h.1, isPre_append_right ps cs e h.2⟩

theorem hasSub_pat_nil (l : List Char) : hasSub l [] = true := by
  cases l <;> simp [hasSub, isPre]

theorem hasSub_of_isPre (l p e : List Char) (h : isPre p l = true) :
    hasSub (l ++ e) p = true := by
  cases l with
  | nil =>
    cases p with
    | nil => simpa using hasSub_pat_nil e
    | cons a ps => simp [isPre] at h
  | cons c t =>
    have hp : isPre p ((c :: t) ++ e) = true := isPre_append_right p (c :: t) e h
    simp only [List.cons_append] at hp ⊢
    simp [hasSub, hp]

theorem hasSub_append_left (h t p : List Char) (hh : hasSub t p = true) :
    hasSub (h ++ t) p = true := by
  induction h with
  | nil => simpa using hh
  | cons c hs ih => simp [hasSub, List.cons_append, ih]

theorem hasSub_refl (l : List Char) : hasSub l l = true := by
  cases l with
  | nil => rfl
  | cons c t => simp [hasSub, isPre_refl]

theorem hasSub_pyJoin_of_mem (ms : List String) (m : String) (hm : m ∈ ms) :
    hasSub (pyJoin "; " ms).data m.data = true := by
  induction ms with
  | nil => simp at hm
  | cons a t ih =>
    cases t with
    | nil =>
      have hma : m = a := by simpa using hm
      subst hma
      simpa [pyJoin] using hasSub_refl m.data
    | cons b t₂ =>
      rcases List.mem_cons.mp hm with h | h
      · subst h
        show hasSub ((m ++ "; " ++ pyJoin "; " (b :: t₂))).data m.data = true
        rw [String.data_append, String.data_append, List.append_assoc]
        exact hasSub_of_isPre _ _ _ (isPre_refl _)
      · have ihh := ih h
        show hasSub ((a ++ "; " ++ pyJoin "; " (b :: t₂))).data m.data = true
        rw [String.data_append]
        exact hasSub_append_left _ _ _ ihh

theorem dedupFirst_keys_nodup (l : List Row) (seen : List (Option ℤ)) :
    ((dedupFirst seen l).map (fun r => r.MATRICULA)).Nodup ∧
    ∀ k ∈ (dedupFirst seen l).map (fun r => r.MATRICULA), k ∉ seen := by
  induction l generalizing seen with
  | nil => simp [dedupFirst]
  | cons r rs ih =>
    by_cases h : r.MATRICULA ∈ seen
    · simpa [dedupFirst, h] using ih seen
    · have ih₂ := ih (r.MATRICULA :: seen)
      constructor
      · simp only [dedupFirst, if_neg h, List.map_cons, List.nodup_cons]
        refine ⟨fun hmem => ?_, ih₂.1⟩
        exact ih₂.2 _ hmem (List.mem_cons_self _ _)
      · intro k hk
        simp only [dedupFirst, if_neg h, List.map_cons, List.mem_cons] at hk
        rcases hk with hk | hk
        · rw [hk]; exact h
        · have := ih₂.2 _ hk
          intro hks
          exact this (List.mem_cons_of_mem _ hks)

theorem dedupFirst_find? (l : List Row) (seen : List (Option ℤ)) (k : Option ℤ)
    (hk : k ∉ seen) :
    (dedupFirst seen l).find? (fun r => r.MATRICULA = k) =
      l.find? (fun r => r.MATRICULA = k) := by
  induction l generalizing seen with
  | nil => simp [dedupFirst]
  | cons r rs ih =>
    by_cases hmem : r.MATRICULA ∈ seen
    · have hne : ¬ (r.MATRICULA = k) := fun h => hk (h ▸ hmem)
      rw [dedupFirst, if_pos hmem, List.find?_cons_of_neg _ (by simpa using hne)]
      exact ih seen hk
    · by_cases heq : r.MATRICULA = k
      · rw [dedupFirst, if_neg hmem, List.find?_cons_of_pos _ (by simpa using heq),
          List.find?_cons_of_pos _ (by simpa using heq)]
      · have hk₂ : k ∉ r.MATRICULA :: seen := by
          intro hmem₂
          rcases List.mem_cons.mp hmem₂ with h | h
          · exact heq h.symm
          · exact hk h
        rw [dedupFirst, if_neg hmem, List.find?_cons_of_neg _ (by simpa using heq),
          List.find?_cons_of_neg _ (by simpa using heq)]
        exact ih _ hk₂

theorem mem_keys_dedupFirst (l : List Row) (seen : List (Option ℤ)) (k : Option ℤ) :
    k ∈ (dedupFirst seen l).map (fun r => r.MATRICULA) ↔
      (k ∈ l.map (fun r => r.MATRICULA) ∧ k ∉ seen) := by
  induction l generalizing seen with
  | nil => simp [dedupFirst]
  | cons r rs ih =>
    by_cases h : r.MATRICULA ∈ seen
    · rw [dedupFirst, if_pos h, ih seen]
      simp only [List.map_cons, List.mem_cons]
      constructor
      · rintro ⟨hm, hs⟩
        exact ⟨Or.inr hm, hs⟩
      · rintro ⟨hm | hm, hs⟩
        · exact absurd (hm ▸ h) hs
        · exact ⟨hm, hs⟩
    · rw [dedupFirst, if_neg h]
      simp only [List.map_cons, List.mem_cons, ih (r.MATRICULA :: seen), not_or]
      constructor
      · rintro (heq | ⟨hm, hne₂, hs⟩)
        · exact ⟨Or.inl heq, heq ▸ h⟩
        · exact ⟨Or.inr hm, hs⟩
      · rintro ⟨heq | hm, hs⟩
        · exact Or.inl heq
        · by_cases hkr : k = r.MATRICULA
          · exact Or.inl hkr
          · exact Or.inr ⟨hm, hkr, hs⟩

theorem keys_map_of_pres (f : Row → Row) (hf : ∀ r, (f r).MATRICULA = r.MATRICULA)
    (l : List Row) :
    (l.map f).map (fun r => r.MATRICULA) = l.map (fun r => r.MATRICULA) := by
  induction l with
  | nil => rfl
  | cons a t ih => simp [hf, ih]

theorem find?_map_of_pres (f : Row → Row) (hf : ∀ r, (f r).MATRICULA = r.MATRICULA)
    (k : Option ℤ) (l : List Row) :
    (l.map f).find? (fun r => r.MATRICULA = k) =
      (l.find? (fun r => r.MATRICULA = k)).map f := by
  induction l with
  | nil => rfl
  | cons a t ih =>
    by_cases h : a.MATRICULA = k
    · rw [List.map_cons, List.find?_cons_of_pos _ (by simpa [hf] using h),
        List.find?_cons_of_pos _ (by simpa using h)]
      rfl
    · rw [List.map_cons, List.find?_cons_of_neg _ (by simpa [hf] using h),
        List.find?_cons_of_neg _ (by simpa using h), ih]

theorem PreservesRoster.comp {f g : Row → Row}
    (hf : PreservesRoster f) (hg : PreservesRoster g) : PreservesRoster (g ∘ f) := by
  intro r
  obtain ⟨h₁, h₂, h₃, h₄⟩ := hg (f r)
  obtain ⟨k₁, k₂, k₃, k₄⟩ := hf r
  exact ⟨by simp [Function.comp, h₁, k₁], by simp [Function.comp, h₂, k₂],
    by simp [Function.comp, h₃, k₃], by simp [Function.comp, h₄, k₄]⟩

theorem addCol_subset (cols : List String) (c : String) : cols ⊆ addCol cols c := by
  unfold addCol
  split_ifs
  · exact List.Subset.refl _
  · exact List.subset_append_left _ _

theorem feriasStep_exists_map (base : Table) (t? : Option Table) :
    ∃ f : Row → Row, PreservesRoster f ∧
      (feriasStep base t?).rows = base.rows.map f ∧ base.cols ⊆ (feriasStep base t?).cols := by
  cases t? with
  | none => exact ⟨id, fun _ => ⟨rfl, rfl, rfl, rfl⟩, by simp [feriasStep], by simp [feriasStep]⟩
  | some t =>
    simp only [feriasStep]
    split_ifs with h
    · refine ⟨_, ?_, rfl, addCol_subset _ _⟩
      intro r
      exact ⟨rfl, rfl, rfl, rfl⟩
    · exact ⟨id, fun _ => ⟨rfl, rfl, rfl, rfl⟩, by simp, by simp⟩

theorem applyExclusionFlag_exists_map (base : Table) (t? : Option Table)
    (setFlag : Row → Bool → Row) (hs : ∀ b, PreservesRoster (fun r => setFlag r b))
    (name : String) :
    ∃ f : Row → Row, PreservesRoster f ∧
      (applyExclusionFlag base t? setFlag name).rows = base.rows.map f ∧
      base.cols ⊆ (applyExclusionFlag base t? setFlag name).cols := by
  cases t? with
  | none => exact ⟨id, fun _ => ⟨rfl, rfl, rfl, rfl⟩, by simp [applyExclusionFlag], by simp [applyExclusionFlag]⟩
  | some t =>
    simp only [applyExclusionFlag]
    split_ifs with h₁ h₂ h₃
    · exact ⟨id, fun _ => ⟨rfl, rfl, rfl, rfl⟩, by simp, by simp⟩
    · refine ⟨_, ?_, rfl, addCol_subset _ _⟩
      intro r
      exact hs _ r
    · refine ⟨_, ?_, rfl, addCol_subset _ _⟩
      intro r
      exact hs _ r
    · exact ⟨id, fun _ => ⟨rfl, rfl, rfl, rfl⟩, by simp, by simp⟩

theorem desligadosStep_exists_map (base : Table) (t? : Option Table) :
    ∃ f : Row → Row, PreservesRoster f ∧
      (desligadosStep base t?).rows = base.rows.map f ∧
      base.cols ⊆ (desligadosStep base t?).cols := by
  cases t? with
  | none => exact ⟨id, fun _ => ⟨rfl, rfl, rfl, rfl⟩, by simp [desligadosStep], by simp [desligadosStep]⟩
  | some t =>
    simp only [desligadosStep]
    split_ifs with h₁ h₂ h₃
    · exact ⟨id, fun _ => ⟨rfl, rfl, rfl, rfl⟩, by simp, by simp⟩
    · refine ⟨_, ?_, rfl, (addCol_subset _ _).trans (addCol_subset _ _)⟩
      intro r
      exact ⟨rfl, rfl, rfl, rfl⟩
    · refine ⟨_, ?_, rfl, addCol_subset _ _⟩
      intro r
      exact ⟨rfl, rfl, rfl, rfl⟩
    · exact ⟨id, fun _ => ⟨rfl, rfl, rfl, rfl⟩, by simp, by simp⟩

theorem admissaoStep_exists_map (base : Table) (t? : Option Table) :
    ∃ f : Row → Row, PreservesRoster f ∧
      (admissaoStep base t?).rows = base.rows.map f ∧
      base.cols ⊆ (admissaoStep base t?).cols := by
  cases t? with
  | none => exact ⟨id, fun _ => ⟨rfl, rfl, rfl, rfl⟩, by simp [admissaoStep], by simp [admissaoStep]⟩
  | some t =>
    simp only [admissaoStep]
    split_ifs with h
    · refine ⟨_, ?_, rfl, addCol_subset _ _⟩
      intro r
      exact ⟨rfl, rfl, rfl, rfl⟩
    · exact ⟨id, fun _ => ⟨rfl, rfl, rfl, rfl⟩, by simp, by simp⟩

theorem addUnionValues_exists_map (base : Table) (t? : Option Table) :
    ∃ f : Row → Row, PreservesRoster f ∧
      (addUnionValues base t?).rows = base.rows.map f ∧
      base.cols ⊆ (addUnionValues base t?).cols := by
  cases t? with
  | none => exact ⟨id, fun _ => ⟨rfl, rfl, rfl, rfl⟩, by simp [addUnionValues], by simp [addUnionValues]⟩
  | some t =>
    simp only [addUnionValues]
    split_ifs with h
    · refine ⟨_, ?_, rfl, addCol_subset _ _⟩
      intro r
      exact ⟨rfl, rfl, rfl, rfl⟩
    · exact ⟨id, fun _ => ⟨rfl, rfl, rfl, rfl⟩, by simp, by simp⟩

theorem addWorkdaysByUnion_exists_map (base : Table) (t? : Option Table) :
    ∃ f : Row → Row, PreservesRoster f ∧
      (addWorkdaysByUnion base t?).rows = base.rows.map f ∧
      base.cols ⊆ (addWorkdaysByUnion base t?).cols := by
  cases t? with
  | none =>
    exact ⟨id, fun _ => ⟨rfl, rfl, rfl, rfl⟩, by simp [addWorkdaysByUnion], by simp [addWorkdaysByUnion]⟩
  | some t =>
    simp only [addWorkdaysByUnion]
    split_ifs with h
    · refine ⟨_, ?_, rfl, addCol_subset _ _⟩
      intro r
      exact ⟨rfl, rfl, rfl, rfl⟩
    · exact ⟨id, fun _ => ⟨rfl, rfl, rfl, rfl⟩, by simp, by simp⟩

theorem consolidateChain_exists_map (base : Table) (raw : RawFiles) :
    ∃ f : Row → Row, PreservesRoster f ∧
      (addWorkdaysByUnion (addUnionValues (consolidateEmployeeData base raw)
          raw.base_sindicato) raw.base_dias_uteis).rows = base.rows.map f ∧
      base.cols ⊆ (addWorkdaysByUnion (addUnionValues (consolidateEmployeeData base raw)
          raw.base_sindicato) raw.base_dias_uteis).cols := by
  set T₁ := feriasStep base raw.ferias with hT₁
  set T₂ := applyExclusionFlag T₁ raw.estagio
    (fun r b => { r with IS_ESTAGIARIO := some b }) "IS_ESTAGIARIO" with hT₂
  set T₃ := applyExclusionFlag T₂ raw.aprendiz
    (fun r b => { r with IS_APRENDIZ := some b }) "IS_APRENDIZ" with hT₃
  set T₄ := applyExclusionFlag T₃ raw.afastamentos
    (fun r b => { r with IS_AFASTADO := some b }) "IS_AFASTADO" with hT₄
  set T₅ := applyExclusionFlag T₄ raw.exterior
    (fun r b => { r with IS_EXTERIOR := some b }) "IS_EXTERIOR" with hT₅
  set T₆ := desligadosStep T₅ raw.desligados with hT₆
  set T₇ := admissaoStep T₆ raw.admissao with hT₇
  set T₈ := addUnionValues T₇ raw.base_sindicato with hT₈
  set T₉ := addWorkdaysByUnion T₈ raw.base_dias_uteis with hT₉
  have hchain : addWorkdaysByUnion (addUnionValues (consolidateEmployeeData base raw)
      raw.base_sindicato) raw.base_dias_uteis = T₉ := by
    rw [hT₉, hT₈, hT₇, hT₆, hT₅, hT₄, hT₃, hT₂, hT₁]
    rfl
  obtain ⟨f₁, hp₁, he₁, hc₁⟩ := feriasStep_exists_map base raw.ferias
  rw [← hT₁] at he₁ hc₁
  obtain ⟨f₂, hp₂, he₂, hc₂⟩ := applyExclusionFlag_exists_map T₁ raw.estagio
    (fun r b => { r with IS_ESTAGIARIO := some b }) (fun _ _ => ⟨rfl, rfl, rfl, rfl⟩) "IS_ESTAGIARIO"
  rw [← hT₂] at he₂ hc₂
  obtain ⟨f₃, hp₃, he₃, hc₃⟩ := applyExclusionFlag_exists_map T₂ raw.aprendiz
    (fun r b => { r with IS_APRENDIZ := some b }) (fun _ _ => ⟨rfl, rfl, rfl, rfl⟩) "IS_APRENDIZ"
  rw [← hT₃] at he₃ hc₃
  obtain ⟨f₄, hp₄, he₄, hc₄⟩ := applyExclusionFlag_exists_map T₃ raw.afastamentos
    (fun r b => { r with IS_AFASTADO := some b }) (fun _ _ => ⟨rfl, rfl, rfl, rfl⟩) "IS_AFASTADO"
  rw [← hT₄] at he₄ hc₄
  obtain ⟨f₅, hp₅, he₅, hc₅⟩ := applyExclusionFlag_exists_map T₄ raw.exterior
    (fun r b => { r with IS_EXTERIOR := some b }) (fun _ _ => ⟨rfl, rfl, rfl, rfl⟩) "IS_EXTERIOR"
  rw [← hT₅] at he₅ hc₅
  obtain ⟨f₆, hp₆, he₆, hc₆⟩ := desligadosStep_exists_map T₅ raw.desligados
  rw [← hT₆] at he₆ hc₆
  obtain ⟨f₇, hp₇, he₇, hc₇⟩ := admissaoStep_exists_map T₆ raw.admissao
  rw [← hT₇] at he₇ hc₇
  obtain ⟨f₈, hp₈, he₈, hc₈⟩ := addUnionValues_exists_map T₇ raw.base_sindicato
  rw [← hT₈] at he₈ hc₈
  obtain ⟨f₉, hp₉, he₉, hc₉⟩ := addWorkdaysByUnion_exists_map T₈ raw.base_dias_uteis
  rw [← hT₉] at he₉ hc₉
  refine ⟨f₉ ∘ f₈ ∘ f₇ ∘ f₆ ∘ f₅ ∘ f₄ ∘ f₃ ∘ f₂ ∘ f₁, ?_, ?_, ?_⟩
  · exact (((((((hp₁.comp hp₂).comp hp₃).comp hp₄).comp hp₅).comp hp₆).comp
      hp₇).comp hp₈).comp hp₉
  · rw [hchain, he₉, he₈, he₇, he₆, he₅, he₄, he₃, he₂, he₁]
    simp only [List.map_map]
  · rw [hchain]
    exact hc₁.trans (hc₂.trans (hc₃.trans (hc₄.trans (hc₅.trans (hc₆.trans
      (hc₇.trans (hc₈.trans hc₉)))))))

theorem consolidateEmployeeData_cols_subset (base : Table) (raw : RawFiles) :
    base.cols ⊆ (consolidateEmployeeData base raw).cols := by
  set T₁ := feriasStep base raw.ferias with hT₁
  set T₂ := applyExclusionFlag T₁ raw.estagio
    (fun r b => { r with IS_ESTAGIARIO := some b }) "IS_ESTAGIARIO" with hT₂
  set T₃ := applyExclusionFlag T₂ raw.aprendiz
    (fun r b => { r with IS_APRENDIZ := some b }) "IS_APRENDIZ" with hT₃
  set T₄ := applyExclusionFlag T₃ raw.afastamentos
    (fun r b => { r with IS_AFASTADO := some b }) "IS_AFASTADO" with hT₄
  set T₅ := applyExclusionFlag T₄ raw.exterior
    (fun r b => { r with IS_EXTERIOR := some b }) "IS_EXTERIOR" with hT₅
  set T₆ := desligadosStep T₅ raw.desligados with hT₆
  set T₇ := admissaoStep T₆ raw.admissao with hT₇
  have hchain : consolidateEmployeeData base raw = T₇ := by
    rw [hT₇, hT₆, hT₅, hT₄, hT₃, hT₂, hT₁]
    rfl
  obtain ⟨_, _, _, hc₁⟩ := feriasStep_exists_map base raw.ferias
  rw [← hT₁] at hc₁
  obtain ⟨_, _, _, hc₂⟩ := applyExclusionFlag_exists_map T₁ raw.estagio
    (fun r b => { r with IS_ESTAGIARIO := some b }) (fun _ _ => ⟨rfl, rfl, rfl, rfl⟩) "IS_ESTAGIARIO"
  rw [← hT₂] at hc₂
  obtain ⟨_, _, _, hc₃⟩ := applyExclusionFlag_exists_map T₂ raw.aprendiz
    (fun r b => { r with IS_APRENDIZ := some b }) (fun _ _ => ⟨rfl, rfl, rfl, rfl⟩) "IS_APRENDIZ"
  rw [← hT₃] at hc₃
  obtain ⟨_, _, _, hc₄⟩ := applyExclusionFlag_exists_map T₃ raw.afastamentos
    (fun r b => { r with IS_AFASTADO := some b }) (fun _ _ => ⟨rfl, rfl, rfl, rfl⟩) "IS_AFASTADO"
  rw [← hT₄] at hc₄
  obtain ⟨_, _, _, hc₅⟩ := applyExclusionFlag_exists_map T₄ raw.exterior
    (fun r b => { r with IS_EXTERIOR := some b }) (fun _ _ => ⟨rfl, rfl, rfl, rfl⟩) "IS_EXTERIOR"
  rw [← hT₅] at hc₅
  obtain ⟨_, _, _, hc₆⟩ := desligadosStep_exists_map T₅ raw.desligados
  rw [← hT₆] at hc₆
  obtain ⟨_, _, _, hc₇⟩ := admissaoStep_exists_map T₆ raw.admissao
  rw [← hT₇] at hc₇
  rw [hchain]
  exact hc₁.trans (hc₂.trans (hc₃.trans (hc₄.trans (hc₅.trans (hc₆.trans hc₇)))))

theorem consolidateCore_ok (raw : RawFiles) (t : Table)
    (hne : raw.isEmptyDict = false) (ha : raw.ativos = some t)
    (hm : "MATRICULA" ∈ t.cols) :
    ∃ (out : Table) (f : Row → Row),
      consolidateCore (some raw) = .ok out ∧
      PreservesRoster f ∧
      out.rows = (dedupFirst [] t.rows).map f ∧
      t.cols ⊆ out.cols := by
  have hcore : consolidateCore (some raw) =
      .ok (addWorkdaysByUnion (addUnionValues (consolidateEmployeeData
        { cols := t.cols, rows := dedupFirst [] t.rows } raw) raw.base_sindicato)
        raw.base_dias_uteis) := by
    simp [consolidateCore, ha, hne, hm]
  obtain ⟨f, hp, he, hc⟩ :=
    consolidateChain_exists_map { cols := t.cols, rows := dedupFirst [] t.rows } raw
  exact ⟨_, f, hcore, hp, he, hc⟩

/-! ## Claim theorems -/

/-- C1: for every calculated record the three monetary fields drift by at
most one cent, `|VALOR_TOTAL_VR − (CUSTO_EMPRESA + DESCONTO_PROFISSIONAL)| ≤ 0.01`,
where the engine sets `VALOR_TOTAL_VR = round(d·v, 2)`,
`CUSTO_EMPRESA = round(d·v·0.8, 2)`, `DESCONTO_PROFISSIONAL = round(d·v·0.2, 2)`;
the bound holds for every non-negative day count `d` and rate `v`, and
for every row the engine processes. -/
theorem C1_money_split_invariant :
    (∀ (d : ℕ) (v : ℚ), 0 ≤ v →
      |pyRound2 (d * v) - (pyRound2 (d * v * (4/5)) + pyRound2 (d * v * (1/5)))| ≤ 1/100) ∧
    ∀ r : Row,
      |((calcBenefitsRow r).VALOR_TOTAL_VR).getD 0 -
        (((calcBenefitsRow r).CUSTO_EMPRESA).getD 0 +
         ((calcBenefitsRow r).DESCONTO_PROFISSIONAL).getD 0)| ≤ 1/100 := by
  constructor
  · intro d v _
    exact pyRound2_split (d * v)
  · intro r
    simpa [calcBenefitsRow] using
      pyRound2_split ((calculateIndividualWorkdays r : ℚ) * getDailyValueForEmployee r)

/-- C1 witness: the bound instantiated at 22 paid days and rate 35. -/
theorem C1_money_split_invariant_witness :
    0 ≤ (35 : ℚ) ∧
    |pyRound2 ((22 : ℕ) * (35 : ℚ)) -
      (pyRound2 ((22 : ℕ) * (35 : ℚ) * (4/5)) + pyRound2 ((22 : ℕ) * (35 : ℚ) * (1/5)))| ≤ 1/100 :=
  ⟨by norm_num, C1_money_split_invariant.1 22 35 (by norm_num)⟩

/-- C2 counterexample: for the prorated regime with cutoff day 10 (≤ 15)
and contractual base 7, the engine computes `max(1, int(7·0.5)) = 3`
(`int` truncates), while the claimed formula `max(1, round(7·0.5))`
gives 4: the claim is false as stated. -/
theorem C2_prorated_rounding_counterexample :
    rowOdd.TIPO_CALCULO = some "PROPORCIONAL" ∧
    rowOdd.DATA_LIMITE_CALCULO = some ⟨10, 5, 2025⟩ ∧
    rowOdd.DIAS_UTEIS_SINDICATO = some 7 ∧
    calculateIndividualWorkdays rowOdd = 3 ∧
    max 1 (round ((7 : ℚ) * (1/2))) = 4 ∧
    calculateIndividualWorkdays rowOdd ≠ max 1 (round ((7 : ℚ) * (1/2))) := by
  have h3 : calculateIndividualWorkdays rowOdd = 3 := by
    simp [calculateIndividualWorkdays, rowOdd, emptyRow, pyInt]
    norm_num
  have h4 : max 1 (round ((7 : ℚ) * (1/2))) = 4 := by
    norm_num [round_eq]
  refine ⟨rfl, rfl, rfl, h3, h4, ?_⟩
  rw [h3, h4]
  omega

/-- C2 (amended): in the prorated regime with a present cutoff date and
contractual base `b`, a cutoff day ≤ 15 yields
`max(1, int(b · 0.5))` paid days — `int()` truncation, not rounding to
nearest — and a cutoff day > 15 yields `b`. -/
theorem C2_prorated_amended (r : Row) (d : Date) (b : ℤ)
    (ht : r.TIPO_CALCULO = some "PROPORCIONAL")
    (hd : r.DATA_LIMITE_CALCULO = some d)
    (hb : r.DIAS_UTEIS_SINDICATO = some (b : ℚ)) :
    (d.day ≤ 15 → calculateIndividualWorkdays r = max 1 (pyInt ((b : ℚ) * (1/2)))) ∧
    (15 < d.day → calculateIndividualWorkdays r = b) := by
  constructor
  · intro hday
    simp [calculateIndividualWorkdays, ht, hd, hb, pyInt_intCast, hday]
  · intro hday
    have hn : ¬ d.day ≤ 15 := Nat.not_le.mpr hday
    simp [calculateIndividualWorkdays, ht, hd, hb, pyInt_intCast, hn]

/-- C2 witness: the amended statement instantiated at the base-7,
day-10 fixture row. -/
theorem C2_prorated_amended_witness :
    calculateIndividualWorkdays rowOdd = max 1 (pyInt (((7 : ℤ) : ℚ) * (1/2))) :=
  (C2_prorated_amended rowOdd ⟨10, 5, 2025⟩ 7 rfl rfl
    (by simp [rowOdd, emptyRow])).1 (by norm_num)

/-- C3: in the vacation-adjusted regime with contractual base `b` and
vacation days `f ≥ 0`, the engine computes `max(0, b − f)` paid days —
the same formula as `calculate_vacation_adjustment` in the business
rules — which is 0 (never negative) whenever `f > b`. -/
theorem C3_vacation_adjusted (r : Row) (b f : ℤ)
    (ht : r.TIPO_CALCULO = some "FERIAS")
    (hb : r.DIAS_UTEIS_SINDICATO = some (b : ℚ))
    (hf : r.DIAS_FERIAS = some (f : ℚ))
    (hf0 : 0 ≤ f) :
    calculateIndividualWorkdays r = max 0 (b - f) ∧
    calculateIndividualWorkdays r = calculate_vacation_adjustment b f ∧
    (b < f → calculateIndividualWorkdays r = 0) ∧
    0 ≤ calculateIndividualWorkdays r := by
  have hmain : calculateIndividualWorkdays r = max 0 (b - f) := by
    simp [calculateIndividualWorkdays, ht, hb, hf, pyInt_intCast]
  refine ⟨hmain, by rw [hmain]; rfl, ?_, by rw [hmain]; exact le_max_left 0 _⟩
  intro hlt
  rw [hmain]
  omega

/-- C3 witness: 22 contractual days and 5 vacation days give 17 paid
days via the vacation-adjustment formula. -/
theorem C3_vacation_adjusted_witness :
    0 ≤ (5 : ℤ) ∧ calculateIndividualWorkdays rowVac = max 0 ((22 : ℤ) - 5) :=
  ⟨by norm_num,
   (C3_vacation_adjusted rowVac 22 5 rfl (by simp [rowVac, emptyRow])
     (by simp [rowVac, emptyRow]) (by norm_num)).1⟩

/-- C5: on any non-empty validated frame with a MATRICULA column,
`CalculationAgent.execute` reaches the line
`state["monthly_workdays"] = workdays`, whose unbound name raises; the
handler reports the stage failed with an error tagged `calculation`,
yet `calculated_df` — assigned on the previous line — already holds the
fully computed per-record results. -/
theorem C5_calculation_fails_after_computing (st : VRState) (df : Table)
    (hv : st.validated_df = some df)
    (hne : df.rows ≠ [])
    (hmat : "MATRICULA" ∈ df.cols) :
    (calculationExecute st).success = false ∧
    (calculationExecute st).processing_stage = "calculation_failed" ∧
    (calculationExecute st).errors =
      st.errors ++ [⟨"calculation", "name 'workdays' is not defined"⟩] ∧
    ∃ out, (calculationExecute st).calculated_df = some out ∧
      out.rows = df.rows.map calcBenefitsRow := by
  have hE : df.rows.isEmpty = false := by
    cases h : df.rows with
    | nil => exact absurd h hne
    | cons a t => rfl
  simp only [calculationExecute, hv, hE, Bool.false_eq_true, if_false,
    calculateIndividualBenefits, hmat, if_pos, ite_false, ite_true,
    calcExecuteLocals, stageFail, calculateFinalStatistics]
  refine ⟨rfl, rfl, rfl, ⟨_, rfl, rfl⟩⟩

/-- C6: a record with several simultaneous exclusion causes is marked
ineligible with one reason string joining all collected causes with
"; " — every cause appears in the reason — and in particular an intern
whose title contains DIRETOR gets a reason mentioning both the intern
cause and the excluded-position cause. -/
theorem C6_concatenated_exclusion_reasons (r : Row) :
    (2 ≤ (motivos r).length →
      (markExclusion r).ELEGIVEL = some false ∧
      (markExclusion r).MOTIVO_EXCLUSAO = some (pyJoin "; " (motivos r)) ∧
      ∀ m ∈ motivos r, strContains ((markExclusion r).MOTIVO_EXCLUSAO.getD "") m = true) ∧
    (r.IS_ESTAGIARIO = some true →
      strContains (pyUpper (r.TITULO_DO_CARGO.getD "")) "DIRETOR" = true →
      strContains ((markExclusion r).MOTIVO_EXCLUSAO.getD "") "Estagiário" = true ∧
      strContains ((markExclusion r).MOTIVO_EXCLUSAO.getD "") "Cargo excluído" = true) := by
  constructor
  · intro hlen
    have hne : motivos r ≠ [] := by
      intro h
      rw [h] at hlen
      simp at hlen
    have hmo : (markExclusion r).MOTIVO_EXCLUSAO = some (pyJoin "; " (motivos r)) := by
      simp [markExclusion, hne]
    refine ⟨by simp [markExclusion, hne], hmo, ?_⟩
    intro m hm
    rw [hmo]
    simpa [strContains] using hasSub_pyJoin_of_mem _ _ hm
  · intro h1 h2
    have hmem1 : "Estagiário" ∈ motivos r := by simp [motivos, h1]
    have hmem2 : "Cargo excluído" ∈ motivos r := by simp [motivos, h2]
    have hne : motivos r ≠ [] := List.ne_nil_of_mem hmem1
    have hmo : (markExclusion r).MOTIVO_EXCLUSAO = some (pyJoin "; " (motivos r)) := by
      simp [markExclusion, hne]
    rw [hmo]
    constructor
    · simpa [strContains] using hasSub_pyJoin_of_mem _ _ hmem1
    · simpa [strContains] using hasSub_pyJoin_of_mem _ _ hmem2

/-- C6 witness: the intern-director fixture is excluded with a reason
naming both causes. -/
theorem C6_concatenated_exclusion_reasons_witness :
    strContains ((markExclusion rowIntern).MOTIVO_EXCLUSAO.getD "") "Estagiário" = true ∧
    strContains ((markExclusion rowIntern).MOTIVO_EXCLUSAO.getD "") "Cargo excluído" = true :=
  (C6_concatenated_exclusion_reasons rowIntern).2 rfl (by decide)

/-- C4: after category exclusion, a record flagged dismissed with a
recorded dismissal date is dropped by the dismissal step when the
dismissal day is ≤ 15, with a reason naming the day-15 cutoff; with a
day > 15 it stays, switched to the prorated regime with the dismissal
date stored as the calculation cutoff; a record with no dismissal date
is not excluded by this step. -/
theorem C4_dismissal_cutoff (df : Table)
    (hcols : "IS_DESLIGADO" ∈ df.cols ∧ "DATA_DEMISSAO" ∈ df.cols)
    (r : Row) (hr : r ∈ df.rows) (dd : Date) :
    (r.IS_DESLIGADO = some true → r.DATA_DEMISSAO = some dd → dd.day ≤ 15 →
      (dismissRow r).ELEGIVEL_VR = some false ∧
      dismissRow r ∉ (applyDismissalRules df).rows ∧
      strContains ((dismissRow r).MOTIVO_EXCLUSAO_VR.getD "") "Demissão até dia 15" = true) ∧
    (r.IS_DESLIGADO = some true → r.DATA_DEMISSAO = some dd → 15 < dd.day →
      dismissRow r ∈ (applyDismissalRules df).rows ∧
      (dismissRow r).ELEGIVEL_VR = some true ∧
      (dismissRow r).TIPO_CALCULO = some "PROPORCIONAL" ∧
      (dismissRow r).DATA_LIMITE_CALCULO = some dd) ∧
    (r.DATA_DEMISSAO = none →
      dismissRow r ∈ (applyDismissalRules df).rows ∧
      (dismissRow r).ELEGIVEL_VR = some true) := by
  have hrows : (applyDismissalRules df).rows =
      (df.rows.map dismissRow).filter (fun x => x.ELEGIVEL_VR = some true) := by
    unfold applyDismissalRules
    rw [if_pos hcols]
  refine ⟨?_, ?_, ?_⟩
  · intro h1 h2 hday
    have hE : (dismissRow r).ELEGIVEL_VR = some false := by
      simp [dismissRow, h1, h2, hday]
    have hM : (dismissRow r).MOTIVO_EXCLUSAO_VR =
        some ("Demissão até dia 15 (" ++ fmtDate dd ++ ")") := by
      simp [dismissRow, h1, h2, hday]
    refine ⟨hE, ?_, ?_⟩
    · intro hmem
      rw [hrows] at hmem
      have hkeep := (List.mem_filter.mp hmem).2
      rw [hE] at hkeep
      simp at hkeep
    · rw [hM]
      show strContains ("Demissão até dia 15 (" ++ fmtDate dd ++ ")") "Demissão até dia 15" = true
      unfold strContains
      rw [String.data_append, String.data_append, List.append_assoc]
      exact hasSub_of_isPre _ _ _ (by decide)
  · intro h1 h2 hday
    have hn : ¬ dd.day ≤ 15 := Nat.not_le.mpr hday
    have hE : (dismissRow r).ELEGIVEL_VR = some true := by
      simp [dismissRow, h1, h2, hn]
    refine ⟨?_, hE, by simp [dismissRow, h1, h2, hn], by simp [dismissRow, h1, h2, hn]⟩
    rw [hrows]
    exact List.mem_filter.mpr ⟨List.mem_map_of_mem _ hr, by simp [hE]⟩
  · intro h2
    have hE : (dismissRow r).ELEGIVEL_VR = some true := by
      rcases hI : r.IS_DESLIGADO with _ | b
      · simp [dismissRow, hI, h2]
      · cases b <;> simp [dismissRow, hI, h2]
    refine ⟨?_, hE⟩
    rw [hrows]
    exact List.mem_filter.mpr ⟨List.mem_map_of_mem _ hr, by simp [hE]⟩

/-- C4 witness: a dismissal on the 20th stays eligible on the prorated
regime with the dismissal date as the calculation cutoff. -/
theorem C4_dismissal_cutoff_witness :
    dismissRow rowDismiss20 ∈ (applyDismissalRules dfDismiss).rows ∧
    (dismissRow rowDismiss20).ELEGIVEL_VR = some true ∧
    (dismissRow rowDismiss20).TIPO_CALCULO = some "PROPORCIONAL" ∧
    (dismissRow rowDismiss20).DATA_LIMITE_CALCULO = some ⟨20, 5, 2025⟩ :=
  (C4_dismissal_cutoff dfDismiss (by decide) rowDismiss20 (by decide)
    ⟨20, 5, 2025⟩).2.1 rfl rfl (by norm_num)

/-- C5 witness: the failure-with-results behaviour at a one-row
validated frame. -/
theorem C5_calculation_fails_after_computing_witness :
    (calculationExecute stCalc).success = false ∧
    (calculationExecute stCalc).processing_stage = "calculation_failed" ∧
    (calculationExecute stCalc).errors =
      stCalc.errors ++ [⟨"calculation", "name 'workdays' is not defined"⟩] ∧
    ∃ out, (calculationExecute stCalc).calculated_df = some out ∧
      out.rows = dfValidated.rows.map calcBenefitsRow :=
  C5_calculation_fails_after_computing stCalc dfValidated rfl
    (by simp [dfValidated]) (by decide)

/-- C7: consolidation keeps exactly one record per distinct identifier —
the record set is the first-occurrence deduplication of the roster
(stable on original order), with later duplicates discarded; the merge
chain preserves the roster fields (identifier, job title, work status,
union), and for each identifier the surviving record is exactly the
merge-image of the roster's first row with that identifier, carrying
that first row's roster fields. -/
theorem C7_dedup_keeps_first_occurrence (st : VRState) (raw : RawFiles) (t : Table)
    (hrf : st.raw_files = some raw)
    (hne : raw.isEmptyDict = false)
    (ha : raw.ativos = some t)
    (hm : "MATRICULA" ∈ t.cols) :
    ∃ (out : Table) (f : Row → Row),
      (consolidationExecute st).consolidated_df = some out ∧
      PreservesRoster f ∧
      out.rows = (dedupFirst [] t.rows).map f ∧
      (out.rows.map (fun r => r.MATRICULA)).Nodup ∧
      (∀ k, (dedupFirst [] t.rows).find? (fun r => r.MATRICULA = k) =
        t.rows.find? (fun r => r.MATRICULA = k)) ∧
      (∀ k, k ∈ out.rows.map (fun r => r.MATRICULA) ↔
        k ∈ t.rows.map (fun r => r.MATRICULA)) ∧
      (∀ k r₀, t.rows.find? (fun r => r.MATRICULA = k) = some r₀ →
        out.rows.find? (fun r => r.MATRICULA = k) = some (f r₀) ∧
        (f r₀).MATRICULA = r₀.MATRICULA ∧
        (f r₀).TITULO_DO_CARGO = r₀.TITULO_DO_CARGO ∧
        (f r₀).DESC_SITUACAO = r₀.DESC_SITUACAO ∧
        (f r₀).Sindicato = r₀.Sindicato) := by
  obtain ⟨out, f, hcore, hpres, hrows, _⟩ := consolidateCore_ok raw t hne ha hm
  have hexec : (consolidationExecute st).consolidated_df = some out := by
    unfold consolidationExecute
    rw [hrf, hcore]
  refine ⟨out, f, hexec, hpres, hrows, ?_, ?_, ?_, ?_⟩
  · rw [hrows, keys_map_of_pres f (fun r => (hpres r).1)]
    exact (dedupFirst_keys_nodup t.rows []).1
  · intro k
    exact dedupFirst_find? t.rows [] k (by simp)
  · intro k
    rw [hrows, keys_map_of_pres f (fun r => (hpres r).1), mem_keys_dedupFirst]
    simp
  · intro k r₀ h₀
    refine ⟨?_, (hpres r₀).1, (hpres r₀).2.1, (hpres r₀).2.2.1, (hpres r₀).2.2.2⟩
    rw [hrows, find?_map_of_pres f (fun r => (hpres r).1) k,
      dedupFirst_find? t.rows [] k (by simp), h₀]
    rfl

/-- C7 witness: on the duplicated-roster fixture, the surviving record
for identifier 100 is the merge-image of the roster's first row for
100, still titled ANALISTA (the duplicate COORDENADOR row is the one
discarded), and output identifiers are duplicate-free. -/
theorem C7_dedup_keeps_first_occurrence_witness :
    ∃ (out : Table) (f : Row → Row),
      (consolidationExecute stDup).consolidated_df = some out ∧
      PreservesRoster f ∧
      (out.rows.map (fun r => r.MATRICULA)).Nodup ∧
      out.rows.find? (fun r => r.MATRICULA = some 100) = some (f rowMat100) ∧
      (f rowMat100).MATRICULA = some 100 ∧
      (f rowMat100).TITULO_DO_CARGO = some "ANALISTA" := by
  obtain ⟨out, f, hdf, hpres, hrows, hnd, hfd, hmem, hfirst⟩ :=
    C7_dedup_keeps_first_occurrence stDup _ ativosDup rfl rfl rfl (by decide)
  obtain ⟨hf100, hM, hT, _, _⟩ := hfirst (some 100) rowMat100 (by decide)
  refine ⟨out, f, hdf, hpres, hnd, hf100, ?_, ?_⟩
  · rw [hM]
    rfl
  · rw [hT]
    rfl

/-- C8: with the roster table missing its MATRICULA column — or missing
entirely — consolidation fails the stage without raising: success is
false, the stage tag is `consolidation_failed`, one error tagged
`consolidation` is appended, and `consolidated_df` is left untouched. -/
theorem C8_consolidation_fails_gracefully (st : VRState) (raw : RawFiles)
    (hrf : st.raw_files = some raw) (hne : raw.isEmptyDict = false) :
    (∀ t, raw.ativos = some t → "MATRICULA" ∉ t.cols →
      (consolidationExecute st).success = false ∧
      (consolidationExecute st).processing_stage = "consolidation_failed" ∧
      (consolidationExecute st).errors = st.errors ++
        [⟨"consolidation", "Coluna MATRICULA não encontrada em ATIVOS"⟩] ∧
      (consolidationExecute st).consolidated_df = st.consolidated_df) ∧
    (raw.ativos = none →
      (consolidationExecute st).success = false ∧
      (consolidationExecute st).processing_stage = "consolidation_failed" ∧
      (consolidationExecute st).errors = st.errors ++
        [⟨"consolidation", "Arquivo ATIVOS obrigatório não encontrado"⟩] ∧
      (consolidationExecute st).consolidated_df = st.consolidated_df) := by
  constructor
  · intro t ha hm
    have hcore : consolidateCore st.raw_files =
        .error "Coluna MATRICULA não encontrada em ATIVOS" := by
      rw [hrf]
      simp [consolidateCore, ha, hne, hm]
    unfold consolidationExecute
    rw [hcore]
    exact ⟨rfl, rfl, rfl, rfl⟩
  · intro ha
    have hcore : consolidateCore st.raw_files =
        .error "Arquivo ATIVOS obrigatório não encontrado" := by
      rw [hrf]
      simp [consolidateCore, ha, hne]
    unfold consolidationExecute
    rw [hcore]
    exact ⟨rfl, rfl, rfl, rfl⟩

/-- C8 witness: the MATRICULA-less roster fixture fails the stage with
the tagged error and no consolidated frame. -/
theorem C8_consolidation_fails_gracefully_witness :
    (consolidationExecute stNoMat).success = false ∧
    (consolidationExecute stNoMat).processing_stage = "consolidation_failed" ∧
    (consolidationExecute stNoMat).errors = stNoMat.errors ++
      [⟨"consolidation", "Coluna MATRICULA não encontrada em ATIVOS"⟩] ∧
    (consolidationExecute stNoMat).consolidated_df = stNoMat.consolidated_df :=
  (C8_consolidation_fails_gracefully stNoMat _ rfl rfl).1 ativosNoMat rfl (by decide)

/-- C9 counterexample: with no union reference table in the raw files,
consolidation emits a non-empty record set in which no record has a
populated VALOR_DIA or DIAS_UTEIS_SINDICATO — the claimed
default-substitution at consolidation time does not happen when the
reference source is missing. -/
theorem C9_union_defaults_counterexample :
    ((consolidationExecute stNoUnionTable).consolidated_df).map
      (fun out => out.rows.all (fun r => r.VALOR_DIA.isSome)) = some false ∧
    ((consolidationExecute stNoUnionTable).consolidated_df).map
      (fun out => out.rows.all (fun r => r.DIAS_UTEIS_SINDICATO.isSome)) = some false ∧
    ((consolidationExecute stNoUnionTable).consolidated_df).map
      (fun out => out.rows.isEmpty) = some false := by
  refine ⟨?_, ?_, ?_⟩ <;> rfl

/-- C9 (amended): when the union reference tables are present and
usable (non-empty, with their SINDICATO / value columns) and the roster
carries the union column, every consolidated record has both VALOR_DIA
and DIAS_UTEIS_SINDICATO populated — the exact-match mapped value, or
the defaults 35.0 and 22 when the union is unmapped or absent; when a
reference table is missing the field is left unpopulated (the
calculation stage substitutes the default later). -/
theorem C9_union_defaults_amended (st : VRState) (raw : RawFiles) (t bs ds : Table)
    (hrf : st.raw_files = some raw) (hne : raw.isEmptyDict = false)
    (ha : raw.ativos = some t) (hm : "MATRICULA" ∈ t.cols)
    (hsind : "Sindicato" ∈ t.cols)
    (hbs : raw.base_sindicato = some bs) (hbs₁ : bs.rows ≠ [])
    (hbs₂ : "SINDICATO" ∈ bs.cols) (hbs₃ : "VALOR_DIA" ∈ bs.cols)
    (hds : raw.base_dias_uteis = some ds) (hds₁ : ds.rows ≠ [])
    (hds₂ : "SINDICATO" ∈ ds.cols) (hds₃ : "DIAS_UTEIS" ∈ ds.cols) :
    ∃ out, (consolidationExecute st).consolidated_df = some out ∧
      (∀ r ∈ out.rows, r.VALOR_DIA = some (resolveUnionValue bs r.Sindicato) ∧
        r.DIAS_UTEIS_SINDICATO = some (resolveUnionDays ds r.Sindicato)) ∧
      resolveUnionValue bs none = 35 ∧ resolveUnionDays ds none = 22 ∧
      (∀ s, bs.rows.reverse.find? (fun x => x.SINDICATO = some s) = none →
        resolveUnionValue bs (some s) = 35) ∧
      (∀ s, ds.rows.reverse.find? (fun x => x.SINDICATO = some s) = none →
        resolveUnionDays ds (some s) = 22) := by
  set B := consolidateEmployeeData { cols := t.cols, rows := dedupFirst [] t.rows } raw
    with hB
  have hSindB : "Sindicato" ∈ B.cols := by
    rw [hB]
    exact consolidateEmployeeData_cols_subset _ raw hsind
  have h₈ : addUnionValues B (some bs) =
      { cols := addCol B.cols "VALOR_DIA",
        rows := B.rows.map (fun r =>
          { r with VALOR_DIA := some (resolveUnionValue bs r.Sindicato) }) } := by
    simp only [addUnionValues]
    rw [if_pos ⟨hbs₁, hbs₂, hbs₃, hSindB⟩]
  have h₉ : addWorkdaysByUnion (addUnionValues B (some bs)) (some ds) =
      { cols := addCol (addCol B.cols "VALOR_DIA") "DIAS_UTEIS_SINDICATO",
        rows := (B.rows.map (fun r =>
          { r with VALOR_DIA := some (resolveUnionValue bs r.Sindicato) })).map (fun r =>
          { r with DIAS_UTEIS_SINDICATO := some (resolveUnionDays ds r.Sindicato) }) } := by
    rw [h₈]
    simp only [addWorkdaysByUnion]
    rw [if_pos ⟨hds₁, hds₂, hds₃, addCol_subset _ _ hSindB⟩]
  have hcore : consolidateCore (some raw) =
      .ok (addWorkdaysByUnion (addUnionValues B (some bs)) (some ds)) := by
    rw [hB]
    simp [consolidateCore, ha, hne, hm, hbs, hds]
  have hexec : (consolidationExecute st).consolidated_df =
      some (addWorkdaysByUnion (addUnionValues B (some bs)) (some ds)) := by
    unfold consolidationExecute
    rw [hrf, hcore]
  rw [h₉] at hexec
  refine ⟨_, hexec, ?_, rfl, rfl, ?_, ?_⟩
  · intro r hr
    simp only [List.mem_map] at hr
    obtain ⟨x, ⟨y, _, rfl⟩, rfl⟩ := hr
    exact ⟨rfl, rfl⟩
  · intro s hf
    simp [resolveUnionValue, hf]
  · intro s hf
    simp [resolveUnionDays, hf]

/-- C9 witness: with both reference tables present, every consolidated
record of the fixture roster resolves its rate and workdays through the
union maps (with defaults for the unmapped union). -/
theorem C9_union_defaults_amended_witness :
    ∃ out, (consolidationExecute stWithUnionTables).consolidated_df = some out ∧
      (∀ r ∈ out.rows, r.VALOR_DIA = some (resolveUnionValue sindTable r.Sindicato) ∧
        r.DIAS_UTEIS_SINDICATO = some (resolveUnionDays diasTable r.Sindicato)) ∧
      resolveUnionValue sindTable none = 35 ∧ resolveUnionDays diasTable none = 22 ∧
      (∀ s, sindTable.rows.reverse.find? (fun x => x.SINDICATO = some s) = none →
        resolveUnionValue sindTable (some s) = 35) ∧
      (∀ s, diasTable.rows.reverse.find? (fun x => x.SINDICATO = some s) = none →
        resolveUnionDays diasTable (some s) = 22) :=
  C9_union_defaults_amended stWithUnionTables _ _ sindTable diasTable rfl rfl rfl
    (by decide) (by decide) rfl (by decide) (by decide) (by decide) rfl (by decide)
    (by decide) (by decide)

/-- C10: consolidation is deterministic at the record-set level — two
runs from states with equal raw files (and equal prior consolidated
frames) produce equal consolidated record sets. -/
theorem C10_consolidation_deterministic (s t : VRState)
    (hraw : s.raw_files = t.raw_files)
    (hcons : s.consolidated_df = t.consolidated_df) :
    (consolidationExecute s).consolidated_df =
      (consolidationExecute t).consolidated_df := by
  unfold consolidationExecute
  rw [hraw]
  cases h : consolidateCore t.raw_files with
  | ok df => rfl
  | error e => simpa [stageFail] using hcons

/-- C10 witness: two states sharing the duplicated-roster raw files but
differing in run metadata consolidate to the same record set. -/
theorem C10_consolidation_deterministic_witness :
    (consolidationExecute stDup).consolidated_df =
      (consolidationExecute stDup2).consolidated_df :=
  C10_consolidation_deterministic stDup stDup2 rfl rfl

end VR
